import Mathlib

/-!
Shallow embedding of the rally plugin-validation module
(rally/common/validation.py) and proofs about it.

Modelling conventions:
* Python objects that validators merely carry around (config values,
  plugin configuration, credential objects) are represented by Nat.
* A Python dict is an association list; dict.get is List.lookup with a
  default.
* Fallible Python code (raising RallyException / ValueError) returns
  Except RallyError.
* A validator class is a value carrying its structural data (whether it
  is a RequiredPlatformValidator subclass, its own declared validators)
  together with a behaviour function "run" that models instantiating the
  class with (args, kwargs) and calling validate(credentials, config,
  plugin_cls, plugin_cfg): the outcome is either a returned value
  (some result, or none for a None/falsy return) or a raised exception
  with its type name, message and formatted traceback.  Validator names
  in declarations are already resolved to their classes, folding in the
  Validator.get registry lookup of _load_validators.
-/

set_option linter.unusedVariables false

namespace Rally

/-- Outcome value object of one validator execution
(class ValidationResult in the source). -/
structure ValidationResult where
  is_valid : Bool
  msg : String
  etype : Option String
  etraceback : Option String
deriving Repr, DecidableEq

/-- ValidationResult(b) with the source's default arguments
msg="", etype=None, etraceback=None. -/
def ValidationResult.make (b : Bool) : ValidationResult :=
  ⟨b, "", none, none⟩

/-- Validator.fail: failure result with a message. -/
def Validator.fail (msg : String) : ValidationResult :=
  ⟨false, msg, none, none⟩

/-- Credentials of one platform: the "admin" entry (None or an object)
and the "users" entry (a sequence of objects, default ()). -/
structure PlatformCreds where
  admin : Option Nat
  users : List Nat
deriving Repr, DecidableEq

/-- The credentials dict for all platforms: platform name to creds. -/
abbrev Credentials := List (String × PlatformCreds)

/-- State of a RequiredPlatformValidator instance after __init__. -/
structure RequiredPlatformValidator where
  platform : String
  admin : Bool
  users : Bool
deriving Repr, DecidableEq

/-- RequiredPlatformValidator.validate.  Mirrors the source: fail unless
admin or users is requested; look up credentials[platform] with default
\x7b\x7d; fail when admin is requested but absent; when users are requested
and the user list is empty, fail only if there is also no admin. -/
def RequiredPlatformValidator.validate (v : RequiredPlatformValidator)
    (credentials : Option Credentials) (config : Nat)
    (plugin_cls : String) (plugin_cfg : Nat) : Option ValidationResult :=
  if !(v.admin || v.users) then
    some (Validator.fail "You should specify admin=True or users=True or both.")
  else
    let credentials1 : Credentials :=
      match credentials with
      | none => []
      | some c => c
    let creds : PlatformCreds := (credentials1.lookup v.platform).getD ⟨none, []⟩
    if v.admin && creds.admin.isNone then
      some (Validator.fail ("No admin credential for " ++ v.platform))
    else if v.users && (creds.users.length == 0) then
      if creds.admin.isNone then
        some (Validator.fail ("No user credentials for " ++ v.platform))
      else
        none
    else
      none

/-- RequiredPlatformValidator.validate with the argument state threaded
through explicitly: the source body only reads from credentials/config
(dict.get and len), so the embedding returns them alongside the result. -/
def RequiredPlatformValidator.validateFrame (v : RequiredPlatformValidator)
    (credentials : Option Credentials) (config : Nat)
    (plugin_cls : String) (plugin_cfg : Nat) :
    Option ValidationResult × Option Credentials × Nat :=
  if !(v.admin || v.users) then
    (some (Validator.fail "You should specify admin=True or users=True or both."),
     credentials, config)
  else
    let credentials1 : Credentials :=
      match credentials with
      | none => []
      | some c => c
    let creds : PlatformCreds := (credentials1.lookup v.platform).getD ⟨none, []⟩
    if v.admin && creds.admin.isNone then
      (some (Validator.fail ("No admin credential for " ++ v.platform)),
       credentials, config)
    else if v.users && (creds.users.length == 0) then
      if creds.admin.isNone then
        (some (Validator.fail ("No user credentials for " ++ v.platform)),
         credentials, config)
      else
        (none, credentials, config)
    else
      (none, credentials, config)

/-- The two exception kinds the module raises:
exceptions.RallyException (from add) and ValueError (from validate). -/
inductive RallyError where
  | rallyException (emsg : String)
  | valueError (emsg : String)
deriving Repr, DecidableEq

/-- A validator declaration tuple (name, args, kwargs) as stored in the
plugin meta by add/add_default. -/
abbrev DeclTuple := String × List Nat × List (String × Nat)

/-- A Python class as seen by the add decorator: whether it is a
Validator subclass, whether it is a RequiredPlatformValidator subclass,
and its "validators" meta list. -/
structure PyClass where
  isValidatorSub : Bool
  isRPVSub : Bool
  validators : List DeclTuple
deriving Repr, DecidableEq

/-- The add(name, **kwargs) decorator applied to a plugin class.
Raises when the class is a RequiredPlatformValidator subclass; raises
when it is any other Validator subclass and the name is not
"required_platform"; otherwise appends (name, (), kwargs) to the class's
validators meta list and returns the class. -/
def add (name : String) (kwargs : List (String × Nat)) (plugin : PyClass) :
    Except RallyError PyClass :=
  if plugin.isRPVSub then
    Except.error (RallyError.rallyException
      "Cannot add a validator to RequiredPlatformValidator")
  else if plugin.isValidatorSub && (name != "required_platform") then
    Except.error (RallyError.rallyException
      ("Only RequiredPlatformValidator can be added " ++
       "to other validators as a validator"))
  else
    Except.ok ⟨plugin.isValidatorSub, plugin.isRPVSub,
               plugin.validators ++ [(name, [], kwargs)]⟩

/-- Outcome of instantiating a validator class with its declared
(args, kwargs) and calling validate(credentials, config, plugin_cls,
plugin_cfg): either a returned value (none models a None/falsy return)
or a raised exception, carrying type(exc).__name__, str(exc) and
traceback.format_exc(). -/
inductive ExecOutcome where
  | ret (r : Option ValidationResult)
  | exc (ename emsg etb : String)

/-- A resolved validator class: its plugin name, whether it is a
subclass of RequiredPlatformValidator, its own declared validators
(what _load_validators returns for it, names already resolved), and its
behaviour function. -/
inductive VClass : Type where
  | mk (name : String) (isRPV : Bool)
       (validators : List (VClass × List Nat × List (String × Nat)))
       (run : List Nat → List (String × Nat) → Option Credentials → Nat → Nat →
              ExecOutcome) : VClass

/-- A resolved declaration (validator class, args, kwargs). -/
abbrev Decl := VClass × List Nat × List (String × Nat)

def VClass.name : VClass → String
  | VClass.mk n _ _ _ => n

def VClass.isRPV : VClass → Bool
  | VClass.mk _ b _ _ => b

def VClass.validators : VClass → List Decl
  | VClass.mk _ _ vs _ => vs

def VClass.run : VClass →
    (List Nat → List (String × Nat) → Option Credentials → Nat → Nat → ExecOutcome)
  | VClass.mk _ _ _ r => r

/-- A plugin class as the orchestrator sees it: its declared validators
(what cls._load_validators(plugin) returns, names already resolved). -/
structure PluginClass where
  validators : List Decl

/-- ValidatablePluginMixin._load_validators for a plugin class. -/
def ValidatablePluginMixin.loadValidators (p : PluginClass) : List Decl :=
  p.validators

/-- The plugin registry: cls.get(name, allow_hidden=..., namespace=...),
returning none where the source raises exceptions.PluginNotFound. -/
abbrev Registry := String → Option String → Bool → Option PluginClass

/-- The vtype argument: None, a single string, or a list/tuple of
strings. -/
inductive VType where
  | noneV
  | str (s : String)
  | list (ss : List String)
deriving Repr, DecidableEq

/-- Normalization of vtype in ValidatablePluginMixin.validate: None
requests all three tiers; otherwise wrap a single string in a list,
reject unknown names with ValueError, and request the named tiers.
Returns (semantic, syntax tier flag, platform) in the source's
assignment order. -/
def normalizeVType (vtype : VType) : Except RallyError (Bool × Bool × Bool) :=
  match vtype with
  | VType.noneV => Except.ok (true, true, true)
  | _ =>
    let vt : List String :=
      match vtype with
      | VType.str s => [s]
      | VType.list ss => ss
      | VType.noneV => []
    let wrong_types :=
      vt.filter (fun s => !(s == "semantic" || s == "syntax" || s == "platform"))
    if wrong_types.isEmpty then
      Except.ok (vt.contains "semantic", vt.contains "syntax", vt.contains "platform")
    else
      Except.error (RallyError.valueError
        ("Wrong type of validation: " ++ String.intercalate ", " wrong_types.eraseDups))

/-- One iteration of the partition loop in validate: route a declaration
to the platform tier if its class subclasses RequiredPlatformValidator,
to the semantic (regular) tier if it has validators of its own (also
folding those into the platform tier), else to the syntax tier — each
only if the corresponding tier is requested.  The accumulator is
(syntax tier, platform tier, regular tier). -/
def partitionStep (syn plat sem : Bool)
    (acc : List Decl × List Decl × List Decl) (d : Decl) :
    List Decl × List Decl × List Decl :=
  let synL := acc.1
  let platL := acc.2.1
  let regL := acc.2.2
  if d.1.isRPV then
    (synL, (if plat then platL ++ [d] else platL), regL)
  else
    let validators_of_validators := d.1.validators
    if !validators_of_validators.isEmpty then
      (synL,
       (if plat then platL ++ validators_of_validators else platL),
       (if sem then regL ++ [d] else regL))
    else
      ((if syn then synL ++ [d] else synL), platL, regL)

/-- The full partition loop over the plugin's declared validators. -/
def partitionValidators (syn plat sem : Bool) (ds : List Decl) :
    List Decl × List Decl × List Decl :=
  ds.foldl (partitionStep syn plat sem) ([], [], [])

/-- Execute one declaration: instantiate and validate inside try/except.
A falsy return becomes ValidationResult(True); an exception becomes a
failure result with the exception text, type name and traceback. -/
def execDecl (credentials : Option Credentials) (config plugin_cfg : Nat)
    (d : Decl) : ValidationResult :=
  match d.1.run d.2.1 d.2.2 credentials config plugin_cfg with
  | ExecOutcome.ret r => r.getD (ValidationResult.make true)
  | ExecOutcome.exc ename emsg etb => ⟨false, emsg, some ename, some etb⟩

/-- The inner loop of validate over one tier: execute each declaration,
append failing results to the accumulated results.  The second
component is ghost instrumentation recording every declaration that was
instantiated and executed. -/
def runTier (credentials : Option Credentials) (config plugin_cfg : Nat)
    (acc : List ValidationResult × List Decl) (tier : List Decl) :
    List ValidationResult × List Decl :=
  tier.foldl
    (fun a d =>
      let result := execDecl credentials config plugin_cfg d
      ((if result.is_valid then a.1 else a.1 ++ [result]), a.2 ++ [d]))
    acc

/-- The outer loop of validate over the tiers (syntax, platform,
regular): run a tier, then break as soon as the accumulated results are
non-empty. -/
def runTiers (credentials : Option Credentials) (config plugin_cfg : Nat) :
    List ValidationResult × List Decl → List (List Decl) →
    List ValidationResult × List Decl
  | acc, [] => acc
  | acc, tier :: rest =>
    let acc1 := runTier credentials config plugin_cfg acc tier
    if acc1.1.isEmpty then runTiers credentials config plugin_cfg acc1 rest
    else acc1

/-- ValidatablePluginMixin.validate, with the ghost execution trace kept
alongside the result list.  clsName is cls.__name__ of the mixin
subclass the classmethod is called on; nspace is the namespace argument
(a Lean keyword, hence the changed spelling). -/
def ValidatablePluginMixin.validateWithTrace
    (clsName : String) (registry : Registry) (name : String)
    (credentials : Option Credentials) (config : Nat) (plugin_cfg : Nat)
    (nspace : Option String) (allow_hidden : Bool) (vtype : VType) :
    Except RallyError (List ValidationResult × List Decl) :=
  match registry name nspace allow_hidden with
  | none =>
    Except.ok
      ([⟨false, "There is no " ++ clsName ++ " plugin with name: '" ++ name ++ "'",
         none, none⟩], [])
  | some plugin =>
    match normalizeVType vtype with
    | Except.error e => Except.error e
    | Except.ok (sem, syn, plat) =>
      let tiers := partitionValidators syn plat sem
        (ValidatablePluginMixin.loadValidators plugin)
      Except.ok (runTiers credentials config plugin_cfg ([], [])
        [tiers.1, tiers.2.1, tiers.2.2])

/-- ValidatablePluginMixin.validate: the returned list of failing
ValidationResult instances (or a raised error). -/
def ValidatablePluginMixin.validate
    (clsName : String) (registry : Registry) (name : String)
    (credentials : Option Credentials) (config : Nat) (plugin_cfg : Nat)
    (nspace : Option String) (allow_hidden : Bool) (vtype : VType) :
    Except RallyError (List ValidationResult) :=
  (ValidatablePluginMixin.validateWithTrace clsName registry name credentials
    config plugin_cfg nspace allow_hidden vtype).map Prod.fst

/-- A sample syntax-tier validator class (no validators of its own, not
a RequiredPlatformValidator subclass) that always fails. -/
def sampleSynFail : VClass :=
  VClass.mk "sample_jsonschema" false []
    (fun _ _ _ _ _ => ExecOutcome.ret (some (Validator.fail "bad syntax arg")))

/-- A sample platform-tier validator class (a RequiredPlatformValidator
subclass) that always fails — so a run of it is visible in the output. -/
def samplePlatformV : VClass :=
  VClass.mk "required_platform" true []
    (fun _ _ _ _ _ => ExecOutcome.ret (some (Validator.fail "no platform")))

/-- A sample validator class whose instantiation/validation raises. -/
def sampleRaising : VClass :=
  VClass.mk "sample_raising" false []
    (fun _ _ _ _ _ => ExecOutcome.exc "KeyError" "admin" "Traceback (most recent call last): ...")

/-- A sample validator class whose validate returns None. -/
def sampleReturnsNone : VClass :=
  VClass.mk "sample_returns_none" false []
    (fun _ _ _ _ _ => ExecOutcome.ret none)

/-- A sample validator class whose validate returns
ValidationResult(True) explicitly. -/
def sampleReturnsTrue : VClass :=
  VClass.mk "sample_returns_true" false []
    (fun _ _ _ _ _ => ExecOutcome.ret (some (ValidationResult.make true)))

/-- A sample plugin declaring one failing syntax-tier validator and one
platform-tier validator. -/
def samplePlugin : PluginClass :=
  ⟨[(sampleSynFail, [], []), (samplePlatformV, [], [])]⟩

/-- A registry resolving the single name "p" to samplePlugin. -/
def sampleRegistry : Registry :=
  fun n _ _ => if n == "p" then some samplePlugin else none

/-- A sample passing platform-tier validator (a
RequiredPlatformValidator subclass whose validate returns None). -/
def samplePlatformOk : VClass :=
  VClass.mk "required_platform" true [] (fun _ _ _ _ _ => ExecOutcome.ret none)

/-- A sample semantic-tier (composite) validator that fails; its own
declared validator is folded into the platform tier by partition. -/
def sampleSemFail : VClass :=
  VClass.mk "sample_semantic_fail" false [(samplePlatformOk, [], [])]
    (fun _ _ _ _ _ => ExecOutcome.ret (some (Validator.fail "semantic fail")))

/-- A sample passing semantic-tier (composite) validator. -/
def sampleSemOk : VClass :=
  VClass.mk "sample_semantic_ok" false [(samplePlatformOk, [], [])]
    (fun _ _ _ _ _ => ExecOutcome.ret none)

/-- A plugin whose syntax tier passes, whose platform tier fails and
which also declares a semantic validator. -/
def samplePluginB : PluginClass :=
  ⟨[(sampleReturnsNone, [], []), (samplePlatformV, [], []),
    (sampleSemFail, [], [])]⟩

/-- A plugin all of whose tiers pass. -/
def samplePluginC : PluginClass :=
  ⟨[(sampleReturnsNone, [], []), (samplePlatformOk, [], []),
    (sampleSemOk, [], [])]⟩

/-- The platform credentials RequiredPlatformValidator.validate works
on: credentials (or an empty dict when None) indexed at the platform
with default \x7b\x7d. -/
def platformCredsOf (credentials : Option Credentials) (platform : String) :
    PlatformCreds :=
  ((match credentials with
    | none => ([] : Credentials)
    | some c => c).lookup platform).getD ⟨none, []⟩

/-- Two declarations that the orchestrator cannot tell apart at the
given inputs: same tier routing data (RequiredPlatformValidator
subclassing, own validators) and the same execution result. -/
abbrev declAgrees (c : Option Credentials) (cf p : Nat) (d1 d2 : Decl) : Prop :=
  d1.1.isRPV = d2.1.isRPV ∧ d1.1.validators = d2.1.validators ∧
  execDecl c cf p d1 = execDecl c cf p d2

/-- Componentwise declAgrees over the partition accumulator
(syntax tier, platform tier, regular tier). -/
abbrev partAgrees (c : Option Credentials) (cf p : Nat)
    (a1 a2 : List Decl × List Decl × List Decl) : Prop :=
  List.Forall₂ (declAgrees c cf p) a1.1 a2.1 ∧
  List.Forall₂ (declAgrees c cf p) a1.2.1 a2.2.1 ∧
  List.Forall₂ (declAgrees c cf p) a1.2.2 a2.2.2

/-- Claim C3: RequiredPlatformValidator(platform=P, admin=A, users=U)
fails exactly as specified: with A and U both false it always fails;
with A true it fails with a "No admin credential" message when the admin
credential is absent and succeeds when one is present; with U true and
an empty user collection it succeeds when an admin credential is present
and fails with a "No user credentials" message otherwise; in all
remaining cases it succeeds. -/
theorem required_platform_validator_cases
    (P : String) (A U : Bool) (credentials : Option Credentials)
    (config : Nat) (plugin_cls : String) (plugin_cfg : Nat) :
    (A = false → U = false →
      RequiredPlatformValidator.validate ⟨P, A, U⟩ credentials config plugin_cls plugin_cfg
        = some (Validator.fail "You should specify admin=True or users=True or both."))
    ∧ (A = true → (platformCredsOf credentials P).admin = none →
      RequiredPlatformValidator.validate ⟨P, A, U⟩ credentials config plugin_cls plugin_cfg
        = some (Validator.fail ("No admin credential for " ++ P)))
    ∧ (∀ x, A = true → (platformCredsOf credentials P).admin = some x →
      RequiredPlatformValidator.validate ⟨P, A, U⟩ credentials config plugin_cls plugin_cfg
        = none)
    ∧ (∀ x, U = true → (platformCredsOf credentials P).users = [] →
      (platformCredsOf credentials P).admin = some x →
      RequiredPlatformValidator.validate ⟨P, A, U⟩ credentials config plugin_cls plugin_cfg
        = none)
    ∧ (A = false → U = true → (platformCredsOf credentials P).users = [] →
      (platformCredsOf credentials P).admin = none →
      RequiredPlatformValidator.validate ⟨P, A, U⟩ credentials config plugin_cls plugin_cfg
        = some (Validator.fail ("No user credentials for " ++ P)))
    ∧ ((A = true ∨ U = true) →
      (A = true → (platformCredsOf credentials P).admin ≠ none) →
      (U = true → (platformCredsOf credentials P).users ≠ [] ∨
                  (platformCredsOf credentials P).admin ≠ none) →
      RequiredPlatformValidator.validate ⟨P, A, U⟩ credentials config plugin_cls plugin_cfg
        = none) := by
  have hval : RequiredPlatformValidator.validate ⟨P, A, U⟩ credentials config plugin_cls plugin_cfg
      = (if !(A || U) then
          some (Validator.fail "You should specify admin=True or users=True or both.")
         else if A && (platformCredsOf credentials P).admin.isNone then
          some (Validator.fail ("No admin credential for " ++ P))
         else if U && ((platformCredsOf credentials P).users.length == 0) then
          if (platformCredsOf credentials P).admin.isNone then
            some (Validator.fail ("No user credentials for " ++ P))
          else none
         else none) := rfl
  refine ⟨?_, ?_, ?_, ?_, ?_, ?_⟩
  · intro hA hU
    subst hA; subst hU
    rw [hval]
    simp
  · intro hA hadm
    subst hA
    rw [hval]
    simp [hadm]
  · intro x hA hadm
    subst hA
    rw [hval]
    simp [hadm]
  · intro x hU husers hadm
    subst hU
    rw [hval]
    simp [hadm, husers]
  · intro hA hU husers hadm
    subst hA; subst hU
    rw [hval]
    simp [husers, hadm]
  · intro h1 h2 h3
    rw [hval]
    cases hA : A with
    | true =>
      rcases hadm : (platformCredsOf credentials P).admin with _ | x
      · exact absurd hadm (h2 hA)
      · cases hU : U with
        | true =>
          rcases hu : (platformCredsOf credentials P).users with _ | ⟨y, ys⟩ <;>
            simp [hadm, hu]
        | false =>
          simp [hadm]
    | false =>
      rcases h1 with h1 | h1
      · exact absurd h1 (by simp [hA])
      · rcases h3 h1 with h3 | h3
        · rcases hu : (platformCredsOf credentials P).users with _ | ⟨y, ys⟩
          · exact absurd hu h3
          · simp [h1, hu]
        · rcases hadm : (platformCredsOf credentials P).admin with _ | x
          · exact absurd hadm h3
          · rcases hu : (platformCredsOf credentials P).users with _ | ⟨y, ys⟩ <;>
              simp [h1, hu, hadm]

/-- Witness for C3: each clause of the case analysis realised at a
concrete platform and credentials mapping. -/
theorem required_platform_validator_cases_witness :
    (RequiredPlatformValidator.validate ⟨"os", false, false⟩ none 0 "Ctx" 0
      = some (Validator.fail "You should specify admin=True or users=True or both."))
    ∧ (RequiredPlatformValidator.validate ⟨"os", true, false⟩
        (some [("os", ⟨none, []⟩)]) 0 "Ctx" 0
      = some (Validator.fail ("No admin credential for " ++ "os")))
    ∧ (RequiredPlatformValidator.validate ⟨"os", true, false⟩
        (some [("os", ⟨some 7, []⟩)]) 0 "Ctx" 0 = none)
    ∧ (RequiredPlatformValidator.validate ⟨"os", false, true⟩
        (some [("os", ⟨some 7, []⟩)]) 0 "Ctx" 0 = none)
    ∧ (RequiredPlatformValidator.validate ⟨"os", false, true⟩
        (some [("os", ⟨none, []⟩)]) 0 "Ctx" 0
      = some (Validator.fail ("No user credentials for " ++ "os")))
    ∧ (RequiredPlatformValidator.validate ⟨"os", false, true⟩
        (some [("os", ⟨none, [3]⟩)]) 0 "Ctx" 0 = none) :=
  ⟨(required_platform_validator_cases "os" false false none 0 "Ctx" 0).1 rfl rfl,
   (required_platform_validator_cases "os" true false
      (some [("os", ⟨none, []⟩)]) 0 "Ctx" 0).2.1 rfl rfl,
   (required_platform_validator_cases "os" true false
      (some [("os", ⟨some 7, []⟩)]) 0 "Ctx" 0).2.2.1 7 rfl rfl,
   (required_platform_validator_cases "os" false true
      (some [("os", ⟨some 7, []⟩)]) 0 "Ctx" 0).2.2.2.1 7 rfl rfl rfl,
   (required_platform_validator_cases "os" false true
      (some [("os", ⟨none, []⟩)]) 0 "Ctx" 0).2.2.2.2.1 rfl rfl rfl rfl,
   (required_platform_validator_cases "os" false true
      (some [("os", ⟨none, [3]⟩)]) 0 "Ctx" 0).2.2.2.2.2
     (Or.inr rfl) (by simp) (fun _ => Or.inl (by decide))⟩

/-- Claim C9: RequiredPlatformValidator.validate only reads from its
credentials and config arguments: the state-threaded embedding returns
both unchanged, and its result agrees with the plain validate. -/
theorem required_platform_validate_pure
    (v : RequiredPlatformValidator) (credentials : Option Credentials)
    (config : Nat) (plugin_cls : String) (plugin_cfg : Nat) :
    (v.validateFrame credentials config plugin_cls plugin_cfg).2.1 = credentials
    ∧ (v.validateFrame credentials config plugin_cls plugin_cfg).2.2 = config
    ∧ (v.validateFrame credentials config plugin_cls plugin_cfg).1
        = v.validate credentials config plugin_cls plugin_cfg := by
  refine ⟨?_, ?_, ?_⟩ <;>
    (cases credentials <;>
      simp only [RequiredPlatformValidator.validateFrame,
                 RequiredPlatformValidator.validate] <;>
      split_ifs <;> rfl)

/-- Claim C5: when the registry cannot resolve the plugin name,
ValidatablePluginMixin.validate does not raise: it returns exactly one
failing result whose message contains the plugin name. -/
theorem validate_plugin_not_found
    (clsName : String) (registry : Registry) (name : String)
    (credentials : Option Credentials) (config plugin_cfg : Nat)
    (nspace : Option String) (allow_hidden : Bool) (vtype : VType)
    (hreg : registry name nspace allow_hidden = none) :
    ValidatablePluginMixin.validate clsName registry name credentials config
        plugin_cfg nspace allow_hidden vtype
      = Except.ok [⟨false,
          "There is no " ++ clsName ++ " plugin with name: '" ++ name ++ "'",
          none, none⟩]
    ∧ ∃ pre post,
        "There is no " ++ clsName ++ " plugin with name: '" ++ name ++ "'"
          = pre ++ name ++ post := by
  constructor
  · unfold ValidatablePluginMixin.validate ValidatablePluginMixin.validateWithTrace
    rw [hreg]
    rfl
  · refine ⟨"There is no " ++ clsName ++ " plugin with name: '", "'", ?_⟩
    rw [String.append_assoc, String.append_assoc]

/-- Witness for C5: a registry that resolves nothing. -/
theorem validate_plugin_not_found_witness :
    ValidatablePluginMixin.validate "Scenario" (fun _ _ _ => none)
        "unregistered_plugin" none 0 0 none false VType.noneV
      = Except.ok [⟨false,
          "There is no " ++ "Scenario" ++ " plugin with name: '" ++
            "unregistered_plugin" ++ "'",
          none, none⟩]
    ∧ ∃ pre post,
        "There is no " ++ "Scenario" ++ " plugin with name: '" ++
            "unregistered_plugin" ++ "'"
          = pre ++ "unregistered_plugin" ++ post :=
  validate_plugin_not_found "Scenario" (fun _ _ _ => none)
    "unregistered_plugin" none 0 0 none false VType.noneV rfl

/-- Counterexample for C6 as stated: with a plugin name the registry
cannot resolve and vtype=["bogus"], validate does not raise — it
returns the plugin-not-found ValidationResult, because the plugin
lookup happens before the vtype check. -/
theorem validate_bad_vtype_cex :
    ValidatablePluginMixin.validate "Scenario" (fun _ _ _ => none)
        "missing_plugin" none 0 0 none false (VType.list ["bogus"])
      = Except.ok [⟨false, "There is no Scenario plugin with name: 'missing_plugin'",
          none, none⟩] := by
  rfl

/-- Claim C6 (amended): provided the registry resolves the plugin name,
a vtype argument (string or list) containing a value outside
syntax/platform/semantic makes validate raise a ValueError rather than
return results; and vtype=None requests all three tiers. -/
theorem validate_bad_vtype_raises_when_found
    (clsName : String) (registry : Registry) (name : String)
    (credentials : Option Credentials) (config plugin_cfg : Nat)
    (nspace : Option String) (allow_hidden : Bool) (plugin : PluginClass)
    (hreg : registry name nspace allow_hidden = some plugin) :
    (∀ vs : List String,
      vs.filter (fun s => !(s == "semantic" || s == "syntax" || s == "platform")) ≠ [] →
      ∃ m, ValidatablePluginMixin.validate clsName registry name credentials
          config plugin_cfg nspace allow_hidden (VType.list vs)
        = Except.error (RallyError.valueError m))
    ∧ (∀ s : String, (s == "semantic" || s == "syntax" || s == "platform") = false →
      ∃ m, ValidatablePluginMixin.validate clsName registry name credentials
          config plugin_cfg nspace allow_hidden (VType.str s)
        = Except.error (RallyError.valueError m))
    ∧ normalizeVType VType.noneV = Except.ok (true, true, true) := by
  refine ⟨?_, ?_, rfl⟩
  · intro vs hbad
    refine ⟨"Wrong type of validation: " ++ String.intercalate ", "
      (vs.filter (fun s => !(s == "semantic" || s == "syntax" || s == "platform"))).eraseDups, ?_⟩
    unfold ValidatablePluginMixin.validate ValidatablePluginMixin.validateWithTrace
    rw [hreg]
    have hvt : normalizeVType (VType.list vs)
        = Except.error (RallyError.valueError
            ("Wrong type of validation: " ++ String.intercalate ", "
              (vs.filter (fun s => !(s == "semantic" || s == "syntax" || s == "platform"))).eraseDups)) := by
      unfold normalizeVType
      simp only [List.isEmpty_iff, if_neg hbad]
    rw [hvt]
    rfl
  · intro s hbad
    refine ⟨"Wrong type of validation: " ++ String.intercalate ", "
      ([s].filter (fun t => !(t == "semantic" || t == "syntax" || t == "platform"))).eraseDups, ?_⟩
    unfold ValidatablePluginMixin.validate ValidatablePluginMixin.validateWithTrace
    rw [hreg]
    have hne : [s].filter (fun t => !(t == "semantic" || t == "syntax" || t == "platform")) ≠ [] := by
      simp [List.filter, hbad]
    have hvt : normalizeVType (VType.str s)
        = Except.error (RallyError.valueError
            ("Wrong type of validation: " ++ String.intercalate ", "
              ([s].filter (fun t => !(t == "semantic" || t == "syntax" || t == "platform"))).eraseDups)) := by
      unfold normalizeVType
      simp only [List.isEmpty_iff, if_neg hne]
    rw [hvt]
    rfl

/-- Witness for C6 (amended): a registry holding one plugin, a bogus
list vtype and a bogus string vtype. -/
theorem validate_bad_vtype_raises_when_found_witness :
    (∃ m, ValidatablePluginMixin.validate "Scenario"
        (fun _ _ _ => some ⟨[]⟩) "p" none 0 0 none false (VType.list ["bogus"])
      = Except.error (RallyError.valueError m))
    ∧ (∃ m, ValidatablePluginMixin.validate "Scenario"
        (fun _ _ _ => some ⟨[]⟩) "p" none 0 0 none false (VType.str "bogus")
      = Except.error (RallyError.valueError m))
    ∧ normalizeVType VType.noneV = Except.ok (true, true, true) :=
  ⟨(validate_bad_vtype_raises_when_found "Scenario" (fun _ _ _ => some ⟨[]⟩)
      "p" none 0 0 none false ⟨[]⟩ rfl).1 ["bogus"] (by decide),
   (validate_bad_vtype_raises_when_found "Scenario" (fun _ _ _ => some ⟨[]⟩)
      "p" none 0 0 none false ⟨[]⟩ rfl).2.1 "bogus" (by decide),
   (validate_bad_vtype_raises_when_found "Scenario" (fun _ _ _ => some ⟨[]⟩)
      "p" none 0 0 none false ⟨[]⟩ rfl).2.2⟩

lemma runTier_trace_eq (c : Option Credentials) (cf p : Nat)
    (rs : List ValidationResult) (tr l : List Decl) :
    (runTier c cf p (rs, tr) l).2 = tr ++ l := by
  induction l generalizing rs tr with
  | nil => simp [runTier]
  | cons d l ih =>
    have hstep : runTier c cf p (rs, tr) (d :: l)
        = runTier c cf p
            ((if (execDecl c cf p d).is_valid then rs else rs ++ [execDecl c cf p d]),
             tr ++ [d]) l := by
      simp [runTier]
    rw [hstep, ih]
    simp

/-- Claim C1: the tiers run strictly in the order syntax, platform,
semantic — the execution trace of the three tier runs is synL, then
synL ++ platL, then synL ++ platL ++ regL — and as soon as one tier
yields at least one failure, no validator of any later tier is
executed: a failing syntax tier ends the run with trace synL; a passing
syntax tier followed by a failing platform tier ends the run with trace
synL ++ platL (no semantic declaration executed); only when both pass
is the semantic tier run. -/
theorem validate_short_circuits_on_tier_failure
    (clsName : String) (registry : Registry) (name : String)
    (credentials : Option Credentials) (config plugin_cfg : Nat)
    (nspace : Option String) (allow_hidden : Bool) (vtype : VType)
    (plugin : PluginClass) (sem syn plat : Bool)
    (synL platL regL : List Decl)
    (r1 r2 r3 : List ValidationResult × List Decl)
    (hreg : registry name nspace allow_hidden = some plugin)
    (hvt : normalizeVType vtype = Except.ok (sem, syn, plat))
    (hpart : partitionValidators syn plat sem
        (ValidatablePluginMixin.loadValidators plugin) = (synL, platL, regL))
    (hr1 : runTier credentials config plugin_cfg ([], []) synL = r1)
    (hr2 : runTier credentials config plugin_cfg r1 platL = r2)
    (hr3 : runTier credentials config plugin_cfg r2 regL = r3) :
    (r1.2 = synL ∧ r2.2 = synL ++ platL ∧ r3.2 = synL ++ platL ++ regL)
    ∧ (r1.1 ≠ [] →
        ValidatablePluginMixin.validateWithTrace clsName registry name
          credentials config plugin_cfg nspace allow_hidden vtype
          = Except.ok r1
        ∧ ValidatablePluginMixin.validate clsName registry name
          credentials config plugin_cfg nspace allow_hidden vtype
          = Except.ok r1.1)
    ∧ (r1.1 = [] → r2.1 ≠ [] →
        ValidatablePluginMixin.validateWithTrace clsName registry name
          credentials config plugin_cfg nspace allow_hidden vtype
          = Except.ok r2
        ∧ ValidatablePluginMixin.validate clsName registry name
          credentials config plugin_cfg nspace allow_hidden vtype
          = Except.ok r2.1)
    ∧ (r1.1 = [] → r2.1 = [] →
        ValidatablePluginMixin.validateWithTrace clsName registry name
          credentials config plugin_cfg nspace allow_hidden vtype
          = Except.ok r3
        ∧ ValidatablePluginMixin.validate clsName registry name
          credentials config plugin_cfg nspace allow_hidden vtype
          = Except.ok r3.1) := by
  subst hr1
  subst hr2
  subst hr3
  have htr1 : (runTier credentials config plugin_cfg ([], []) synL).2 = synL := by
    simpa using runTier_trace_eq credentials config plugin_cfg [] [] synL
  have htr2 : (runTier credentials config plugin_cfg
      (runTier credentials config plugin_cfg ([], []) synL) platL).2
      = synL ++ platL := by
    have h' : (runTier credentials config plugin_cfg
        (runTier credentials config plugin_cfg ([], []) synL) platL).2
        = (runTier credentials config plugin_cfg ([], []) synL).2 ++ platL :=
      runTier_trace_eq credentials config plugin_cfg
        (runTier credentials config plugin_cfg ([], []) synL).1
        (runTier credentials config plugin_cfg ([], []) synL).2 platL
    rw [htr1] at h'
    exact h'
  have htr3 : (runTier credentials config plugin_cfg
      (runTier credentials config plugin_cfg
        (runTier credentials config plugin_cfg ([], []) synL) platL) regL).2
      = synL ++ platL ++ regL := by
    have h' : (runTier credentials config plugin_cfg
        (runTier credentials config plugin_cfg
          (runTier credentials config plugin_cfg ([], []) synL) platL) regL).2
        = (runTier credentials config plugin_cfg
            (runTier credentials config plugin_cfg ([], []) synL) platL).2
          ++ regL :=
      runTier_trace_eq credentials config plugin_cfg
        (runTier credentials config plugin_cfg
          (runTier credentials config plugin_cfg ([], []) synL) platL).1
        (runTier credentials config plugin_cfg
          (runTier credentials config plugin_cfg ([], []) synL) platL).2 regL
    rw [htr2] at h'
    exact h'
  have hmain : ValidatablePluginMixin.validateWithTrace clsName registry name
      credentials config plugin_cfg nspace allow_hidden vtype
      = Except.ok (runTiers credentials config plugin_cfg ([], [])
          [synL, platL, regL]) := by
    unfold ValidatablePluginMixin.validateWithTrace
    rw [hreg, hvt]
    dsimp only
    rw [hpart]
  have hstep : ∀ (acc : List ValidationResult × List Decl) (t : List Decl)
      (rest : List (List Decl)),
      runTiers credentials config plugin_cfg acc (t :: rest)
        = (if (runTier credentials config plugin_cfg acc t).1.isEmpty
           then runTiers credentials config plugin_cfg
             (runTier credentials config plugin_cfg acc t) rest
           else runTier credentials config plugin_cfg acc t) := by
    intro acc t rest
    rw [runTiers]
  have hnil : ∀ acc : List ValidationResult × List Decl,
      runTiers credentials config plugin_cfg acc [] = acc := by
    intro acc
    rw [runTiers]
  refine ⟨⟨htr1, htr2, htr3⟩, ?_, ?_, ?_⟩
  · intro h
    have hne : (runTier credentials config plugin_cfg ([], []) synL).1.isEmpty
        = false := by
      simp [List.isEmpty_iff, h]
    have hrun : runTiers credentials config plugin_cfg ([], [])
        [synL, platL, regL]
        = runTier credentials config plugin_cfg ([], []) synL := by
      rw [hstep, if_neg (by simp [hne])]
    constructor
    · rw [hmain, hrun]
    · unfold ValidatablePluginMixin.validate
      rw [hmain, hrun]
      rfl
  · intro h1 h2
    have he1 : (runTier credentials config plugin_cfg ([], []) synL).1.isEmpty
        = true := by
      simp [h1]
    have hne2 : (runTier credentials config plugin_cfg
        (runTier credentials config plugin_cfg ([], []) synL) platL).1.isEmpty
        = false := by
      simp [List.isEmpty_iff, h2]
    have hrun : runTiers credentials config plugin_cfg ([], [])
        [synL, platL, regL]
        = runTier credentials config plugin_cfg
            (runTier credentials config plugin_cfg ([], []) synL) platL := by
      rw [hstep, if_pos he1, hstep, if_neg (by simp [hne2])]
    constructor
    · rw [hmain, hrun]
    · unfold ValidatablePluginMixin.validate
      rw [hmain, hrun]
      rfl
  · intro h1 h2
    have he1 : (runTier credentials config plugin_cfg ([], []) synL).1.isEmpty
        = true := by
      simp [h1]
    have he2 : (runTier credentials config plugin_cfg
        (runTier credentials config plugin_cfg ([], []) synL) platL).1.isEmpty
        = true := by
      simp [h2]
    have hrun : runTiers credentials config plugin_cfg ([], [])
        [synL, platL, regL]
        = runTier credentials config plugin_cfg
            (runTier credentials config plugin_cfg
              (runTier credentials config plugin_cfg ([], []) synL) platL)
            regL := by
      rw [hstep, if_pos he1, hstep, if_pos he2, hstep]
      by_cases he3 : (runTier credentials config plugin_cfg
          (runTier credentials config plugin_cfg
            (runTier credentials config plugin_cfg ([], []) synL) platL)
          regL).1.isEmpty = true
      · rw [if_pos he3, hnil]
      · rw [if_neg he3]
    constructor
    · rw [hmain, hrun]
    · unfold ValidatablePluginMixin.validate
      rw [hmain, hrun]
      rfl

/-- Witness for C1, one concrete plugin per stopping point: samplePlugin
(failing syntax validator plus platform validator) stops after the
syntax tier; samplePluginB (passing syntax, failing platform, declared
semantic validator) stops after the platform tier with the semantic
declaration never executed; samplePluginC (all tiers pass) runs all
three tiers in order. -/
theorem validate_short_circuits_on_tier_failure_witness :
    (ValidatablePluginMixin.validateWithTrace "Scenario" sampleRegistry "p"
        none 0 0 none false VType.noneV
      = Except.ok (runTier none 0 0 ([], []) [(sampleSynFail, [], [])])
     ∧ ValidatablePluginMixin.validate "Scenario" sampleRegistry "p"
        none 0 0 none false VType.noneV
      = Except.ok (runTier none 0 0 ([], []) [(sampleSynFail, [], [])]).1)
    ∧ (ValidatablePluginMixin.validateWithTrace "Scenario"
        (fun _ _ _ => some samplePluginB) "p" none 0 0 none false VType.noneV
      = Except.ok (runTier none 0 0
          (runTier none 0 0 ([], []) [(sampleReturnsNone, [], [])])
          [(samplePlatformV, [], []), (samplePlatformOk, [], [])])
     ∧ (runTier none 0 0
          (runTier none 0 0 ([], []) [(sampleReturnsNone, [], [])])
          [(samplePlatformV, [], []), (samplePlatformOk, [], [])]).2
       = [(sampleReturnsNone, [], [])]
         ++ [(samplePlatformV, [], []), (samplePlatformOk, [], [])])
    ∧ (ValidatablePluginMixin.validateWithTrace "Scenario"
        (fun _ _ _ => some samplePluginC) "p" none 0 0 none false VType.noneV
      = Except.ok (runTier none 0 0
          (runTier none 0 0
            (runTier none 0 0 ([], []) [(sampleReturnsNone, [], [])])
            [(samplePlatformOk, [], []), (samplePlatformOk, [], [])])
          [(sampleSemOk, [], [])])
     ∧ (runTier none 0 0
          (runTier none 0 0
            (runTier none 0 0 ([], []) [(sampleReturnsNone, [], [])])
            [(samplePlatformOk, [], []), (samplePlatformOk, [], [])])
          [(sampleSemOk, [], [])]).2
       = [(sampleReturnsNone, [], [])]
         ++ [(samplePlatformOk, [], []), (samplePlatformOk, [], [])]
         ++ [(sampleSemOk, [], [])]) := by
  have ha := validate_short_circuits_on_tier_failure "Scenario" sampleRegistry
    "p" none 0 0 none false VType.noneV samplePlugin true true true
    [(sampleSynFail, [], [])] [(samplePlatformV, [], [])] []
    (runTier none 0 0 ([], []) [(sampleSynFail, [], [])])
    (runTier none 0 0 (runTier none 0 0 ([], []) [(sampleSynFail, [], [])])
      [(samplePlatformV, [], [])])
    (runTier none 0 0
      (runTier none 0 0 (runTier none 0 0 ([], []) [(sampleSynFail, [], [])])
        [(samplePlatformV, [], [])]) [])
    rfl rfl rfl rfl rfl rfl
  have hb := validate_short_circuits_on_tier_failure "Scenario"
    (fun _ _ _ => some samplePluginB) "p" none 0 0 none false VType.noneV
    samplePluginB true true true
    [(sampleReturnsNone, [], [])]
    [(samplePlatformV, [], []), (samplePlatformOk, [], [])]
    [(sampleSemFail, [], [])]
    (runTier none 0 0 ([], []) [(sampleReturnsNone, [], [])])
    (runTier none 0 0 (runTier none 0 0 ([], []) [(sampleReturnsNone, [], [])])
      [(samplePlatformV, [], []), (samplePlatformOk, [], [])])
    (runTier none 0 0
      (runTier none 0 0
        (runTier none 0 0 ([], []) [(sampleReturnsNone, [], [])])
        [(samplePlatformV, [], []), (samplePlatformOk, [], [])])
      [(sampleSemFail, [], [])])
    rfl rfl rfl rfl rfl rfl
  have hc := validate_short_circuits_on_tier_failure "Scenario"
    (fun _ _ _ => some samplePluginC) "p" none 0 0 none false VType.noneV
    samplePluginC true true true
    [(sampleReturnsNone, [], [])]
    [(samplePlatformOk, [], []), (samplePlatformOk, [], [])]
    [(sampleSemOk, [], [])]
    (runTier none 0 0 ([], []) [(sampleReturnsNone, [], [])])
    (runTier none 0 0 (runTier none 0 0 ([], []) [(sampleReturnsNone, [], [])])
      [(samplePlatformOk, [], []), (samplePlatformOk, [], [])])
    (runTier none 0 0
      (runTier none 0 0
        (runTier none 0 0 ([], []) [(sampleReturnsNone, [], [])])
        [(samplePlatformOk, [], []), (samplePlatformOk, [], [])])
      [(sampleSemOk, [], [])])
    rfl rfl rfl rfl rfl rfl
  exact ⟨ha.2.1 (by decide),
         ⟨(hb.2.2.1 (by decide) (by decide)).1, hb.1.2.1⟩,
         ⟨(hc.2.2.2 (by decide) (by decide)).1, hc.1.2.2⟩⟩

lemma runTier_results_invalid (c : Option Credentials) (cf p : Nat)
    (acc : List ValidationResult × List Decl) (tier : List Decl)
    (h : ∀ r ∈ acc.1, r.is_valid = false) :
    ∀ r ∈ (runTier c cf p acc tier).1, r.is_valid = false := by
  induction tier generalizing acc with
  | nil => exact h
  | cons d tier ih =>
    have hstep : runTier c cf p acc (d :: tier)
        = runTier c cf p
            ((if (execDecl c cf p d).is_valid then acc.1 else acc.1 ++ [execDecl c cf p d]),
             acc.2 ++ [d]) tier := by
      simp [runTier]
    rw [hstep]
    apply ih
    intro r hr
    by_cases hv : (execDecl c cf p d).is_valid
    · rw [if_pos hv] at hr
      exact h r hr
    · rw [if_neg hv] at hr
      rcases List.mem_append.mp hr with hr | hr
      · exact h r hr
      · rcases List.mem_singleton.mp hr with rfl
        exact Bool.eq_false_iff.mpr hv

lemma runTiers_results_invalid (c : Option Credentials) (cf p : Nat)
    (acc : List ValidationResult × List Decl) (tiers : List (List Decl))
    (h : ∀ r ∈ acc.1, r.is_valid = false) :
    ∀ r ∈ (runTiers c cf p acc tiers).1, r.is_valid = false := by
  induction tiers generalizing acc with
  | nil => exact h
  | cons tier tiers ih =>
    have hstep : runTiers c cf p acc (tier :: tiers)
        = (if (runTier c cf p acc tier).1.isEmpty
           then runTiers c cf p (runTier c cf p acc tier) tiers
           else runTier c cf p acc tier) := by
      rw [runTiers]
    rw [hstep]
    by_cases he : (runTier c cf p acc tier).1.isEmpty
    · rw [if_pos he]
      exact ih _ (runTier_results_invalid c cf p acc tier h)
    · rw [if_neg he]
      exact runTier_results_invalid c cf p acc tier h

/-- Claim C8: every ValidationResult in a list returned by
ValidatablePluginMixin.validate has is_valid=False — only failing
results are accumulated. -/
theorem validate_returns_only_failures
    (clsName : String) (registry : Registry) (name : String)
    (credentials : Option Credentials) (config plugin_cfg : Nat)
    (nspace : Option String) (allow_hidden : Bool) (vtype : VType)
    (rs : List ValidationResult)
    (hok : ValidatablePluginMixin.validate clsName registry name credentials
        config plugin_cfg nspace allow_hidden vtype = Except.ok rs) :
    ∀ r ∈ rs, r.is_valid = false := by
  unfold ValidatablePluginMixin.validate ValidatablePluginMixin.validateWithTrace at hok
  cases hreg : registry name nspace allow_hidden with
  | none =>
    rw [hreg] at hok
    simp only [Except.map] at hok
    rcases Except.ok.inj hok with rfl
    intro r hr
    rcases List.mem_singleton.mp hr with rfl
    rfl
  | some plugin =>
    rw [hreg] at hok
    cases hvt : normalizeVType vtype with
    | error e =>
      rw [hvt] at hok
      simp only [Except.map] at hok
      exact absurd hok (by simp)
    | ok fl =>
      obtain ⟨sem, syn, plat⟩ := fl
      rw [hvt] at hok
      simp only [Except.map] at hok
      rcases Except.ok.inj hok with rfl
      apply runTiers_results_invalid
      intro r hr
      exact absurd hr (List.not_mem_nil r)

/-- Witness for C8: the sample run's returned results all fail. -/
theorem validate_returns_only_failures_witness :
    (⟨false, "bad syntax arg", none, none⟩ : ValidationResult).is_valid = false :=
  validate_returns_only_failures "Scenario" sampleRegistry "p" none 0 0
    none false VType.noneV [⟨false, "bad syntax arg", none, none⟩] rfl
    ⟨false, "bad syntax arg", none, none⟩ (List.mem_singleton.mpr rfl)

/-- Claim C4: an exception raised while instantiating a validator or
running its validate is converted into a failing ValidationResult
carrying the exception message, type name and traceback; the remaining
declarations of the tier are still executed; and validate never
propagates such an exception (it returns Except.ok whenever the plugin
resolves and vtype normalizes). -/
theorem validator_exception_recovered
    (credentials : Option Credentials) (config plugin_cfg : Nat)
    (d : Decl) (ename emsg etb : String)
    (hrun : d.1.run d.2.1 d.2.2 credentials config plugin_cfg
      = ExecOutcome.exc ename emsg etb) :
    execDecl credentials config plugin_cfg d
      = ⟨false, emsg, some ename, some etb⟩
    ∧ (∀ (acc : List ValidationResult × List Decl) (rest : List Decl),
        runTier credentials config plugin_cfg acc (d :: rest)
          = runTier credentials config plugin_cfg
              (acc.1 ++ [⟨false, emsg, some ename, some etb⟩], acc.2 ++ [d]) rest)
    ∧ (∀ (clsName : String) (registry : Registry) (name : String)
        (nspace : Option String) (allow_hidden : Bool) (vtype : VType)
        (plugin : PluginClass) (fl : Bool × Bool × Bool),
        registry name nspace allow_hidden = some plugin →
        normalizeVType vtype = Except.ok fl →
        ∃ rs, ValidatablePluginMixin.validate clsName registry name credentials
            config plugin_cfg nspace allow_hidden vtype = Except.ok rs) := by
  have hexec : execDecl credentials config plugin_cfg d
      = ⟨false, emsg, some ename, some etb⟩ := by
    unfold execDecl
    rw [hrun]
  refine ⟨hexec, ?_, ?_⟩
  · intro acc rest
    simp [runTier, hexec]
  · intro clsName registry name nspace allow_hidden vtype plugin fl hreg hvt
    obtain ⟨sem, syn, plat⟩ := fl
    unfold ValidatablePluginMixin.validate ValidatablePluginMixin.validateWithTrace
    rw [hreg, hvt]
    exact ⟨_, rfl⟩

/-- Witness for C4: a raising validator inside a one-plugin registry. -/
theorem validator_exception_recovered_witness :
    execDecl none 0 0 (sampleRaising, [], [])
      = ⟨false, "admin", some "KeyError",
         some "Traceback (most recent call last): ..."⟩
    ∧ runTier none 0 0 ([], []) [(sampleRaising, [], []), (sampleSynFail, [], [])]
      = runTier none 0 0
          ([⟨false, "admin", some "KeyError",
             some "Traceback (most recent call last): ..."⟩],
           [(sampleRaising, [], [])]) [(sampleSynFail, [], [])]
    ∧ ∃ rs, ValidatablePluginMixin.validate "Scenario"
        (fun _ _ _ => some ⟨[(sampleRaising, [], [])]⟩) "p" none 0 0
        none false VType.noneV = Except.ok rs := by
  have h := validator_exception_recovered none 0 0 (sampleRaising, [], [])
    "KeyError" "admin" "Traceback (most recent call last): ..." rfl
  exact ⟨h.1,
    h.2.1 ([], []) [(sampleSynFail, [], [])],
    h.2.2 "Scenario" (fun _ _ _ => some ⟨[(sampleRaising, [], [])]⟩) "p"
      none false VType.noneV ⟨[(sampleRaising, [], [])]⟩ (true, true, true)
      rfl rfl⟩

/-- Counterexample for C2 as stated: add("required_platform") succeeds
on a class that is NOT a RequiredPlatformValidator subclass (an
ordinary plugin class) and raises on a RequiredPlatformValidator
subclass — the opposite of the claim. -/
theorem add_required_platform_cex :
    add "required_platform" [] ⟨false, false, []⟩
      = Except.ok ⟨false, false, [("required_platform", [], [])]⟩
    ∧ add "required_platform" [] ⟨true, true, []⟩
      = Except.error (RallyError.rallyException
          "Cannot add a validator to RequiredPlatformValidator") := by
  exact ⟨rfl, rfl⟩

/-- Claim C2 (amended): add("required_platform") raises a RallyException
on a RequiredPlatformValidator subclass (for any name, in fact);
applied to a Validator subclass that is not a RequiredPlatformValidator
subclass it succeeds and appends ("required_platform", (), kwargs) to
the class's validators metadata list; and registering a name other than
"required_platform" on such a Validator subclass raises. -/
theorem add_required_platform_rules
    (name : String) (kwargs : List (String × Nat)) (c : PyClass) :
    (c.isRPVSub = true →
      add name kwargs c = Except.error (RallyError.rallyException
        "Cannot add a validator to RequiredPlatformValidator"))
    ∧ (c.isRPVSub = false → c.isValidatorSub = true → name ≠ "required_platform" →
      add name kwargs c = Except.error (RallyError.rallyException
        ("Only RequiredPlatformValidator can be added " ++
         "to other validators as a validator")))
    ∧ (c.isRPVSub = false → c.isValidatorSub = true → name = "required_platform" →
      add name kwargs c
        = Except.ok ⟨c.isValidatorSub, c.isRPVSub,
                     c.validators ++ [(name, [], kwargs)]⟩) := by
  refine ⟨?_, ?_, ?_⟩
  · intro hrpv
    unfold add
    rw [if_pos hrpv]
  · intro hrpv hval hname
    unfold add
    rw [if_neg (by simp [hrpv]), if_pos (by simp [hval, hname])]
  · intro hrpv hval hname
    unfold add
    rw [if_neg (by simp [hrpv]), if_neg (by simp [hval, hname])]

/-- Witness for C2 (amended): a RequiredPlatformValidator subclass, and
a plain Validator subclass with the right and the wrong name. -/
theorem add_required_platform_rules_witness :
    (add "required_platform" [] ⟨true, true, []⟩
      = Except.error (RallyError.rallyException
          "Cannot add a validator to RequiredPlatformValidator"))
    ∧ (add "required_image" [] ⟨true, false, []⟩
      = Except.error (RallyError.rallyException
          ("Only RequiredPlatformValidator can be added " ++
           "to other validators as a validator")))
    ∧ (add "required_platform" [("admin", 1)] ⟨true, false, []⟩
      = Except.ok ⟨true, false, [("required_platform", [], [("admin", 1)])]⟩) :=
  ⟨(add_required_platform_rules "required_platform" [] ⟨true, true, []⟩).1 rfl,
   (add_required_platform_rules "required_image" [] ⟨true, false, []⟩).2.1
     rfl rfl (by decide),
   (add_required_platform_rules "required_platform" [("admin", 1)]
     ⟨true, false, []⟩).2.2 rfl rfl rfl⟩

/-- Claim C10: add(name, **kwargs) on a plugin class that is not a
Validator subclass never raises, for every name: it appends
(name, (), kwargs) to the class's validators metadata list and returns
the class otherwise unchanged.  (In Python a RequiredPlatformValidator
subclass is a Validator subclass, hence the inheritance hypothesis.) -/
theorem add_plain_plugin_never_raises
    (name : String) (kwargs : List (String × Nat)) (c : PyClass)
    (hinherit : c.isRPVSub = true → c.isValidatorSub = true)
    (hplain : c.isValidatorSub = false) :
    add name kwargs c
      = Except.ok ⟨c.isValidatorSub, c.isRPVSub,
                   c.validators ++ [(name, [], kwargs)]⟩ := by
  have hrpv : c.isRPVSub = false := by
    cases hr : c.isRPVSub
    · rfl
    · exact absurd (hinherit hr) (by simp [hplain])
  unfold add
  rw [if_neg (by simp [hrpv]), if_neg (by simp [hplain])]

/-- Witness for C10: an ordinary plugin class, with the name
"required_platform" in particular. -/
theorem add_plain_plugin_never_raises_witness :
    add "required_platform" [("admin", 1)] ⟨false, false, []⟩
      = Except.ok ⟨false, false, [("required_platform", [], [("admin", 1)])]⟩ :=
  add_plain_plugin_never_raises "required_platform" [("admin", 1)]
    ⟨false, false, []⟩ (fun h => by cases h) rfl

lemma forall2_declAgrees_refl (c : Option Credentials) (cf p : Nat)
    (l : List Decl) : List.Forall₂ (declAgrees c cf p) l l :=
  List.forall₂_same.mpr (fun d _ => ⟨rfl, rfl, rfl⟩)

lemma partitionStep_agrees (c : Option Credentials) (cf p : Nat)
    (syn plat sem : Bool) (a1 a2 : List Decl × List Decl × List Decl)
    (d1 d2 : Decl) (hd : declAgrees c cf p d1 d2)
    (ha : partAgrees c cf p a1 a2) :
    partAgrees c cf p (partitionStep syn plat sem a1 d1)
                      (partitionStep syn plat sem a2 d2) := by
  obtain ⟨hrpv, hsub, hexec⟩ := hd
  obtain ⟨h1, h2, h3⟩ := ha
  unfold partitionStep
  dsimp only
  rw [hrpv, hsub]
  split_ifs <;>
    refine ⟨?_, ?_, ?_⟩ <;>
    first
      | exact h1
      | exact h2
      | exact h3
      | exact List.rel_append h1
          (List.Forall₂.cons ⟨hrpv, hsub, hexec⟩ List.Forall₂.nil)
      | exact List.rel_append h2
          (List.Forall₂.cons ⟨hrpv, hsub, hexec⟩ List.Forall₂.nil)
      | exact List.rel_append h3
          (List.Forall₂.cons ⟨hrpv, hsub, hexec⟩ List.Forall₂.nil)
      | exact List.rel_append h2 (forall2_declAgrees_refl c cf p _)

lemma partition_foldl_agrees (c : Option Credentials) (cf p : Nat)
    (syn plat sem : Bool) :
    ∀ {l1 l2 : List Decl}, List.Forall₂ (declAgrees c cf p) l1 l2 →
    ∀ a1 a2 : List Decl × List Decl × List Decl, partAgrees c cf p a1 a2 →
    partAgrees c cf p (l1.foldl (partitionStep syn plat sem) a1)
                      (l2.foldl (partitionStep syn plat sem) a2) := by
  intro l1 l2 h
  induction h with
  | nil =>
    intro a1 a2 ha
    simpa using ha
  | cons hd htl ih =>
    intro a1 a2 ha
    simp only [List.foldl_cons]
    exact ih _ _ (partitionStep_agrees c cf p syn plat sem a1 a2 _ _ hd ha)

lemma partitionValidators_agrees (c : Option Credentials) (cf p : Nat)
    (syn plat sem : Bool) {l1 l2 : List Decl}
    (h : List.Forall₂ (declAgrees c cf p) l1 l2) :
    partAgrees c cf p (partitionValidators syn plat sem l1)
                      (partitionValidators syn plat sem l2) :=
  partition_foldl_agrees c cf p syn plat sem h ([], [], []) ([], [], [])
    ⟨List.Forall₂.nil, List.Forall₂.nil, List.Forall₂.nil⟩

lemma runTier_agrees (c : Option Credentials) (cf p : Nat) :
    ∀ {t1 t2 : List Decl}, List.Forall₂ (declAgrees c cf p) t1 t2 →
    ∀ a1 a2 : List ValidationResult × List Decl, a1.1 = a2.1 →
    (runTier c cf p a1 t1).1 = (runTier c cf p a2 t2).1 := by
  intro t1 t2 h
  induction h with
  | nil =>
    intro a1 a2 ha
    exact ha
  | @cons d1 d2 l1 l2 hd htl ih =>
    intro a1 a2 ha
    have e1 : runTier c cf p a1 (d1 :: l1)
        = runTier c cf p
            ((if (execDecl c cf p d1).is_valid then a1.1
              else a1.1 ++ [execDecl c cf p d1]), a1.2 ++ [d1]) l1 := by
      simp [runTier]
    have e2 : runTier c cf p a2 (d2 :: l2)
        = runTier c cf p
            ((if (execDecl c cf p d2).is_valid then a2.1
              else a2.1 ++ [execDecl c cf p d2]), a2.2 ++ [d2]) l2 := by
      simp [runTier]
    rw [e1, e2]
    apply ih
    rw [hd.2.2, ha]

lemma runTiers_agrees (c : Option Credentials) (cf p : Nat) :
    ∀ {ts1 ts2 : List (List Decl)},
    List.Forall₂ (List.Forall₂ (declAgrees c cf p)) ts1 ts2 →
    ∀ a1 a2 : List ValidationResult × List Decl, a1.1 = a2.1 →
    (runTiers c cf p a1 ts1).1 = (runTiers c cf p a2 ts2).1 := by
  intro ts1 ts2 h
  induction h with
  | nil =>
    intro a1 a2 ha
    exact ha
  | @cons t1 t2 l1 l2 hd htl ih =>
    intro a1 a2 ha
    have e1 : runTiers c cf p a1 (t1 :: l1)
        = (if (runTier c cf p a1 t1).1.isEmpty
           then runTiers c cf p (runTier c cf p a1 t1) l1
           else runTier c cf p a1 t1) := by
      rw [runTiers]
    have e2 : runTiers c cf p a2 (t2 :: l2)
        = (if (runTier c cf p a2 t2).1.isEmpty
           then runTiers c cf p (runTier c cf p a2 t2) l2
           else runTier c cf p a2 t2) := by
      rw [runTiers]
    rw [e1, e2]
    have hr : (runTier c cf p a1 t1).1 = (runTier c cf p a2 t2).1 :=
      runTier_agrees c cf p hd a1 a2 ha
    by_cases he : (runTier c cf p a2 t2).1.isEmpty = true
    · rw [if_pos (by rw [hr]; exact he), if_pos he]
      exact ih _ _ hr
    · rw [if_neg (by rw [hr]; exact he), if_neg he]
      exact hr

/-- Claim C7: in the orchestration output, a validator returning
None/falsy is equivalent to one explicitly returning
ValidationResult(True): substituting one for the other in a plugin's
declaration list leaves the returned failure list unchanged, and both
contribute zero entries to it. -/
theorem none_return_equiv_explicit_true
    (clsName : String) (registry1 registry2 : Registry) (name : String)
    (credentials : Option Credentials) (config plugin_cfg : Nat)
    (nspace : Option String) (allow_hidden : Bool) (vtype : VType)
    (p1 p2 : PluginClass) (pre post : List Decl) (d1 d2 : Decl)
    (hreg1 : registry1 name nspace allow_hidden = some p1)
    (hreg2 : registry2 name nspace allow_hidden = some p2)
    (hv1 : p1.validators = pre ++ d1 :: post)
    (hv2 : p2.validators = pre ++ d2 :: post)
    (hrpv : d1.1.isRPV = d2.1.isRPV)
    (hsub : d1.1.validators = d2.1.validators)
    (hrun1 : d1.1.run d1.2.1 d1.2.2 credentials config plugin_cfg
      = ExecOutcome.ret none)
    (hrun2 : d2.1.run d2.2.1 d2.2.2 credentials config plugin_cfg
      = ExecOutcome.ret (some (ValidationResult.make true))) :
    ValidatablePluginMixin.validate clsName registry1 name credentials config
        plugin_cfg nspace allow_hidden vtype
      = ValidatablePluginMixin.validate clsName registry2 name credentials
          config plugin_cfg nspace allow_hidden vtype
    ∧ execDecl credentials config plugin_cfg d1 = ValidationResult.make true
    ∧ execDecl credentials config plugin_cfg d2 = ValidationResult.make true
    ∧ (∀ acc : List ValidationResult × List Decl,
        (runTier credentials config plugin_cfg acc [d1]).1 = acc.1
        ∧ (runTier credentials config plugin_cfg acc [d2]).1 = acc.1) := by
  have he1 : execDecl credentials config plugin_cfg d1
      = ValidationResult.make true := by
    unfold execDecl
    rw [hrun1]
    rfl
  have he2 : execDecl credentials config plugin_cfg d2
      = ValidationResult.make true := by
    unfold execDecl
    rw [hrun2]
    rfl
  have hd : declAgrees credentials config plugin_cfg d1 d2 :=
    ⟨hrpv, hsub, he1.trans he2.symm⟩
  have hlist : List.Forall₂ (declAgrees credentials config plugin_cfg)
      (pre ++ d1 :: post) (pre ++ d2 :: post) :=
    List.rel_append (forall2_declAgrees_refl credentials config plugin_cfg pre)
      (List.Forall₂.cons hd
        (forall2_declAgrees_refl credentials config plugin_cfg post))
  refine ⟨?_, he1, he2, ?_⟩
  · unfold ValidatablePluginMixin.validate ValidatablePluginMixin.validateWithTrace
    rw [hreg1, hreg2]
    cases hnv : normalizeVType vtype with
    | error e =>
      rfl
    | ok fl =>
      obtain ⟨sem, syn, plat⟩ := fl
      dsimp only [ValidatablePluginMixin.loadValidators]
      rw [hv1, hv2]
      have hpart := partitionValidators_agrees credentials config plugin_cfg
        syn plat sem hlist
      have hres := runTiers_agrees credentials config plugin_cfg
        (List.Forall₂.cons hpart.1
          (List.Forall₂.cons hpart.2.1
            (List.Forall₂.cons hpart.2.2 List.Forall₂.nil)))
        ([], []) ([], []) rfl
      simp only [Except.map]
      rw [hres]
  · intro acc
    constructor <;> simp [runTier, he1, he2, ValidationResult.make]

/-- Witness for C7: two one-validator plugins, one whose validator
returns None, one whose validator returns ValidationResult(True);
validate returns the same (empty) failure list for both. -/
theorem none_return_equiv_explicit_true_witness :
    ValidatablePluginMixin.validate "Scenario"
        (fun _ _ _ => some ⟨[(sampleReturnsNone, [], [])]⟩) "p" none 0 0
        none false VType.noneV
      = ValidatablePluginMixin.validate "Scenario"
          (fun _ _ _ => some ⟨[(sampleReturnsTrue, [], [])]⟩) "p" none 0 0
          none false VType.noneV
    ∧ execDecl none 0 0 (sampleReturnsNone, [], []) = ValidationResult.make true
    ∧ execDecl none 0 0 (sampleReturnsTrue, [], []) = ValidationResult.make true
    ∧ (∀ acc : List ValidationResult × List Decl,
        (runTier none 0 0 acc [(sampleReturnsNone, [], [])]).1 = acc.1
        ∧ (runTier none 0 0 acc [(sampleReturnsTrue, [], [])]).1 = acc.1) :=
  none_return_equiv_explicit_true "Scenario"
    (fun _ _ _ => some ⟨[(sampleReturnsNone, [], [])]⟩)
    (fun _ _ _ => some ⟨[(sampleReturnsTrue, [], [])]⟩)
    "p" none 0 0 none false VType.noneV
    ⟨[(sampleReturnsNone, [], [])]⟩ ⟨[(sampleReturnsTrue, [], [])]⟩
    [] [] (sampleReturnsNone, [], []) (sampleReturnsTrue, [], [])
    rfl rfl rfl rfl rfl rfl rfl rfl

end Rally
